import Mathlib

/-!
Shallow embedding of the lcmgr lifecycle-coordination engine (Go) and proofs
about it.  The embedding follows the Go sources:

* `notice.go`        — the `Notice` variants,
* `handler.go`       — `ServiceHandler.Handle`, `WaitForServiceStart`,
                       `WaitForServiceStop`, `ForLifecycleAction`,
* `listener.go`      — `SpotListener.Listen`, `LifecycleListener.Listen`,
                       `GetLifecycleNotice`, `GetLifecycleNoticeQueues`,
                       `CompleteLifecycleAction`,
* `main.go`          — the dispatch loop of `main`.

External collaborators (dbus, EC2 metadata, SQS, autoscaling API) are modelled
as oracles: their results are explicit parameters of the embedded functions.
Concurrency (the heartbeat goroutine, the select-based listener loops) is
modelled by explicit schedules / event traces covering every interleaving the
Go scheduler allows.
-/

/-- The `Notice` interface of `notice.go`: a tagged lifecycle event.
`SpotNotice` carries a termination time (modelled as `Nat`); `LaunchNotice`
and `TerminationNotice` each wrap a `LifecycleNotice` payload of hook name
and action token. -/
inductive Notice where
  | spot (terminationTime : Nat)
  | launch (hookName actionToken : String)
  | termination (hookName actionToken : String)
deriving DecidableEq, Repr

/-- `Notice.Type()` from `notice.go`. -/
def noticeTypeString : Notice → String
  | .spot _ => "spot"
  | .launch _ _ => "launch"
  | .termination _ _ => "termination"

/-- An error value, `nil` (`none`) or a message. -/
abbrev GoErr := Option String

/-- Oracle for the dbus interactions of `WaitForServiceStart` /
`WaitForServiceStop`: the result of `dbus.New`, of `ListUnitsByNames`, of
`StartUnit`/`StopUnit` (job count `n` and error), and the job result string
read from the `results` channel. -/
structure DbusEnv where
  newConnErr : GoErr
  listUnitsErr : GoErr
  unitsCount : Nat
  jobErr : GoErr
  jobCount : Nat
  jobResult : String
deriving DecidableEq, Repr

/-- A dbus environment in which every step succeeds and the job reports
"done". -/
def dbusOK : DbusEnv :=
  { newConnErr := none, listUnitsErr := none, unitsCount := 1
    jobErr := none, jobCount := 1, jobResult := "done" }

/-- `ServiceHandler.WaitForServiceStart` (handler.go lines 46-75).  Returns
the list of error values that the Go code constructs with `fmt.Errorf` but
never returns (they are discarded), together with the function's actual
return value.  The Go code returns early on a `dbus.New` error, a
`ListUnitsByNames` error, a unit count different from 1, and a `StartUnit`
error; when `StartUnit` reports `n == 0` or the job result is not "done" it
builds an error value without assigning or returning it and falls through to
`return nil`. -/
def WaitForServiceStart (service : String) (env : DbusEnv) :
    List String × GoErr :=
  match env.newConnErr with
  | some e => ([], some e)
  | none =>
    match env.listUnitsErr with
    | some e => ([], some e)
    | none =>
      if env.unitsCount ≠ 1 then
        ([], some ("failed to list status of systemd unit " ++ service ++ ": <nil>"))
      else
        match env.jobErr with
        | some e => ([], some e)
        | none =>
          let discarded₁ :=
            if env.jobCount = 0 then
              ["failed to start systemd unit " ++ service ++ " due to unknown error"]
            else []
          let discarded₂ :=
            if env.jobResult ≠ "done" then
              ["failed to start systemd unit " ++ service ++ ", job returned "
                ++ env.jobResult ++ " result"]
            else []
          (discarded₁ ++ discarded₂, none)

/-- `ServiceHandler.WaitForServiceStop` (handler.go lines 77-106).  Same
structure as `WaitForServiceStart` with `StopUnit` in place of `StartUnit`;
the discarded error messages still say "start" (as in the Go source). -/
def WaitForServiceStop (service : String) (env : DbusEnv) :
    List String × GoErr :=
  match env.newConnErr with
  | some e => ([], some e)
  | none =>
    match env.listUnitsErr with
    | some e => ([], some e)
    | none =>
      if env.unitsCount ≠ 1 then
        ([], some ("failed to list status of systemd unit " ++ service ++ ": <nil>"))
      else
        match env.jobErr with
        | some e => ([], some e)
        | none =>
          let discarded₁ :=
            if env.jobCount = 0 then
              ["failed to start systemd unit " ++ service ++ " due to unknown error"]
            else []
          let discarded₂ :=
            if env.jobResult ≠ "done" then
              ["failed to start systemd unit " ++ service ++ ", job returned "
                ++ env.jobResult ++ " result"]
            else []
          (discarded₁ ++ discarded₂, none)

/-- The input that `awsClient.CompleteLifecycleAction` (listener.go lines
387-419) builds for the autoscaling API: the notice's hook name and action
token and the fixed result string "CONTINUE".  For a `SpotNotice` the Go
function returns an error before building any input (`none` here). -/
structure CompleteInput where
  lifecycleHookName : String
  lifecycleActionToken : String
  lifecycleActionResult : String
deriving DecidableEq, Repr

/-- The branch of `CompleteLifecycleAction` that selects the lifecycle
payload and fixes the "CONTINUE" outcome. -/
def completeInputFor : Notice → Option CompleteInput
  | .launch h t => some ⟨h, t, "CONTINUE"⟩
  | .termination h t => some ⟨h, t, "CONTINUE"⟩
  | .spot _ => none

/-- Observable events of one `Handle` call, at the `AWSClient` / dbus
boundary: a heartbeat send (`Client.SendHeartbeat`), the run of the resolved
start/stop action with its returned error, the completion call
(`Client.CompleteLifecycleAction`) with the input it builds and the error it
returns, and the `cancel()` that stops the heartbeat goroutine. -/
inductive AEvent where
  | heartbeat (notice : Notice)
  | action (err : GoErr)
  | complete (input : Option CompleteInput) (err : GoErr)
  | cancel
deriving DecidableEq, Repr

/-- Heartbeat-goroutine schedule for one `ForLifecycleAction` call: the
heartbeat goroutine's select loop may take the ticker branch any number of
times while the context is not yet cancelled, so ticks may fire before the
action returns (`hb1`), between the action's return and the completion call
(`hb2`), and between the completion call and `cancel()` (`hb3`).  The
goroutine is never joined, and the select chooses randomly among ready
cases, so even after `cancel()` it can win the race on an already-pending
ticker tick or still be inside `Client.SendHeartbeat` (whose
`RecordLifecycleActionHeartbeat` call takes no context): `hb4` heartbeat
sends may complete after `cancel()`, including after `ForLifecycleAction`
has returned. -/
structure Sched where
  hb1 : Nat
  hb2 : Nat
  hb3 : Nat
  hb4 : Nat
deriving DecidableEq, Repr

/-- `ServiceHandler.ForLifecycleAction` (handler.go lines 108-135) as a
trace semantics.  The Go code: starts the heartbeat goroutine, runs the
action `f`, logs (but keeps) its error, calls
`Client.CompleteLifecycleAction` once and only logs its error, then calls
`cancel()` and returns the action's error — without ever joining the
heartbeat goroutine, so heartbeat sends may still complete after `cancel()`.
`sched` fixes how many ticker ticks the heartbeat goroutine serves in each
window (including the post-cancel window `hb4`); `completeErr` is the
completion call's result. -/
def ForLifecycleAction (service : String) (notice : Notice) (sched : Sched)
    (env : DbusEnv) (f : String → DbusEnv → List String × GoErr)
    (completeErr : GoErr) : List AEvent × GoErr :=
  ( List.replicate sched.hb1 (AEvent.heartbeat notice)
      ++ [AEvent.action ((f service env).2)]
      ++ List.replicate sched.hb2 (AEvent.heartbeat notice)
      ++ [AEvent.complete (completeInputFor notice) completeErr]
      ++ List.replicate sched.hb3 (AEvent.heartbeat notice)
      ++ [AEvent.cancel]
      ++ List.replicate sched.hb4 (AEvent.heartbeat notice),
    (f service env).2 )

/-- `ServiceHandler.Handle` (handler.go lines 33-44): a `SpotNotice` goes
straight to `WaitForServiceStop` (no heartbeat goroutine, no completion
call, no cancel); `LaunchNotice` and `TerminationNotice` go through
`ForLifecycleAction` with `WaitForServiceStart` resp. `WaitForServiceStop`. -/
def Handle (service : String) (notice : Notice) (sched : Sched)
    (env : DbusEnv) (completeErr : GoErr) : List AEvent × GoErr :=
  match notice with
  | .spot _ =>
    ([AEvent.action (WaitForServiceStop service env).2],
      (WaitForServiceStop service env).2)
  | .launch _ _ =>
    ForLifecycleAction service notice sched env WaitForServiceStart completeErr
  | .termination _ _ =>
    ForLifecycleAction service notice sched env WaitForServiceStop completeErr

/-- Is this event a heartbeat send? -/
def isHeartbeat : AEvent → Bool
  | .heartbeat _ => true
  | _ => false

/-- Is this event the completion call? -/
def isComplete : AEvent → Bool
  | .complete _ _ => true
  | _ => false

/-- Is this event the `cancel()` of the heartbeat context? -/
def isCancel : AEvent → Bool
  | .cancel => true
  | _ => false

/-- Number of heartbeat sends occurring strictly after the first event
satisfying `p` in a trace. -/
def hbAfter (p : AEvent → Bool) : List AEvent → Nat
  | [] => 0
  | e :: tr => if p e then (tr.filter isHeartbeat).length else hbAfter p tr

/-- Number of heartbeat sends occurring strictly after the first completion
call in a trace. -/
def hbAfterComplete (tr : List AEvent) : Nat :=
  hbAfter isComplete tr

/-- Number of heartbeat sends occurring strictly after the first `cancel()`
in a trace. -/
def hbAfterCancel (tr : List AEvent) : Nat :=
  hbAfter isCancel tr

/-- The completion calls appearing in a trace, with the inputs they carry
and the errors they return. -/
def completions (tr : List AEvent) : List (Option CompleteInput × GoErr) :=
  tr.filterMap fun e =>
    match e with
    | .complete i err => some (i, err)
    | _ => none

/-- The JSON body of a fetched SQS message as seen by `GetLifecycleNotice`:
either `json.Unmarshal` fails (`invalid`), or it yields the four fields of
the `Message` struct. -/
inductive MsgBody where
  | invalid
  | valid (ec2InstanceID lifecycleHookName lifecycleActionToken
      lifecycleTransition : String)
deriving DecidableEq, Repr

/-- One message returned by `ReceiveMessage`, with its receipt handle and an
oracle for whether the `DeleteMessage` call for it would fail. -/
structure SqsMessage where
  body : MsgBody
  receiptHandle : String
  deleteErr : GoErr
deriving DecidableEq, Repr

/-- The `LifecycleTransition` constants of listener.go. -/
def LaunchLifecycleAction : String := "autoscaling:EC2_INSTANCE_LAUNCHING"

/-- The termination transition constant of listener.go. -/
def TerminationLifecycleAction : String := "autoscaling:EC2_INSTANCE_TERMINATING"

/-- `awsClient.GetLifecycleNotice` (listener.go lines 305-352), message loop
only (the `GetInstanceID` and `ReceiveMessage` oracle failures return the
error directly and touch no message; they are omitted).  Returns the receipt
handles of the messages it deletes together with the function's result.
The Go loop: skips (without deleting) messages that fail to unmarshal or
whose `EC2InstanceID` differs from this instance's; on the first match it
deletes the message (propagating a delete error) and returns a Launch or
Termination notice according to `LifecycleTransition` — or a nil notice if
the transition is neither constant.  Messages after the first match are not
examined. -/
def GetLifecycleNotice (instanceID : String) :
    List SqsMessage → List String × Except String (Option Notice)
  | [] => ([], .ok none)
  | m :: rest =>
    match m.body with
    | .invalid => GetLifecycleNotice instanceID rest
    | .valid id hook token transition =>
      if id ≠ instanceID then GetLifecycleNotice instanceID rest
      else
        match m.deleteErr with
        | some e => ([], .error e)
        | none =>
          ([m.receiptHandle],
            .ok (if transition = LaunchLifecycleAction then
                some (Notice.launch hook token)
              else if transition = TerminationLifecycleAction then
                some (Notice.termination hook token)
              else none))

/-- The state of a listener's `Listen` loop: the Go locals `notice` (the
single pending-notice slot) and `notices` (nil or the shared channel,
modelled as the boolean "send case enabled"). -/
structure ListenerState where
  notice : Option Notice
  sendEnabled : Bool
deriving DecidableEq, Repr

/-- Initial listener state: `var notice Notice; var notices chan Notice`. -/
def listenerInit : ListenerState :=
  { notice := none, sendEnabled := false }

/-- One select outcome of `SpotListener.Listen` (listener.go lines 61-85):
the pending notice is accepted on the shared channel, the ticker fires and
`GetSpotNotice` returns `poll` (an error result is logged and leaves
`notice` nil, so it is subsumed by `poll = none`), or the context is done. -/
inductive SpotEvent where
  | send
  | tick (poll : Option Notice)
  | ctxDone
deriving DecidableEq, Repr

/-- One iteration of the `SpotListener.Listen` loop.  First the gate:
`if notice != nil { notices = listener.Notices }`.  Then the select branch
chosen by `e`; `none` means the branch is not available in this state
(sending on a nil channel blocks) or the loop returned. -/
def spotStep (s : ListenerState) (e : SpotEvent) : Option ListenerState :=
  let s := { s with sendEnabled := s.sendEnabled || s.notice.isSome }
  match e with
  | .send =>
    if s.sendEnabled then some { s with sendEnabled := false } else none
  | .tick poll => some { s with notice := poll }
  | .ctxDone => none

/-- Run `SpotListener.Listen` through a list of select outcomes. -/
def spotRun (evs : List SpotEvent) (s : ListenerState) : Option ListenerState :=
  match evs with
  | [] => some s
  | e :: rest =>
    match spotStep s e with
    | none => none
    | some s2 => spotRun rest s2

/-- One select outcome of `LifecycleListener.Listen` (listener.go lines
91-112): the pending notice is accepted, the context is done, or the
`default` branch runs `GetLifecycleNotice`, whose result (nil on error,
logged) is `poll`. -/
inductive LifecycleEvent where
  | send
  | ctxDone
  | fetch (poll : Option Notice)
deriving DecidableEq, Repr

/-- One iteration of the `LifecycleListener.Listen` loop; same gate as the
spot loop, with the blocking fetch in the select's `default` branch. -/
def lifecycleStep (s : ListenerState) (e : LifecycleEvent) :
    Option ListenerState :=
  let s := { s with sendEnabled := s.sendEnabled || s.notice.isSome }
  match e with
  | .send =>
    if s.sendEnabled then some { s with sendEnabled := false } else none
  | .ctxDone => none
  | .fetch poll => some { s with notice := poll }

/-- Run `LifecycleListener.Listen` through a list of select outcomes. -/
def lifecycleRun (evs : List LifecycleEvent) (s : ListenerState) :
    Option ListenerState :=
  match evs with
  | [] => some s
  | e :: rest =>
    match lifecycleStep s e with
    | none => none
    | some s2 => lifecycleRun rest s2

/-- One select outcome of the dispatch loop in `main` (main.go lines 52-63):
a notice is received from the shared channel, or an interrupt signal
arrives (running `cancel()`). -/
inductive MainEvent where
  | notice (n : Notice)
  | signal
deriving DecidableEq, Repr

/-- The dispatch loop of `main`, returning the notices passed to
`handler.Handle` in order.  `canceled` models `ctx.Err() != nil` (false for
the fresh context at startup, true forever after `cancel()`).  The Go loop
header is `for ctx.Err() != nil { ... }`: the loop body runs only while
`canceled` is true. -/
def mainLoop (canceled : Bool) : List MainEvent → List Notice
  | [] => []
  | e :: rest =>
    if canceled then
      match e with
      | .notice n => n :: mainLoop canceled rest
      | .signal => mainLoop true rest
    else []

/-- A lifecycle hook as consumed by `GetLifecycleNoticeQueues`: the
notification target ARN and transition from the autoscaling API, plus
oracles for `arn.Parse` (service, account id, resource — `none` is a parse
error) and for the `GetQueueUrl` call. -/
structure LifecycleHook where
  notificationTargetARN : String
  lifecycleTransition : String
  parsedArn : Option (String × String × String)
  queueUrl : Except String String
deriving Repr

/-- The `Queue` struct of listener.go. -/
structure Queue where
  action : String
  name : String
  url : String
deriving DecidableEq, Repr

/-- The outcome of a Go function that can also panic at runtime. -/
inductive GoResult (α : Type) where
  | ok (a : α)
  | err (e : String)
  | panic (msg : String)
deriving DecidableEq, Repr

/-- A Go `map[string]*Queue` variable: `none` is the nil map (the state
after `var queues map[string]*Queue` with no `make`), `some assoc` an
initialized map. -/
def NilableMap : Type := Option (List (String × Queue))

/-- Lookup `_, ok := queues[k]` — reading a nil map yields "not present". -/
def nilableMapHas (m : NilableMap) (k : String) : Bool :=
  match m with
  | none => false
  | some l => l.any fun p => p.1 = k

/-- Assignment `queues[k] = v` — assigning into a nil map panics at
runtime. -/
def nilableMapInsert (m : NilableMap) (k : String) (v : Queue) :
    GoResult (List (String × Queue)) :=
  match m with
  | none => GoResult.panic "assignment to entry in nil map"
  | some l => GoResult.ok (l ++ [(k, v)])

/-- The hook loop of `awsClient.GetLifecycleNoticeQueues` (listener.go lines
250-278), threading the `queues` map variable. -/
def getQueuesLoop (queues : NilableMap) :
    List LifecycleHook → GoResult (List (String × Queue))
  | [] => GoResult.ok (match queues with | none => [] | some l => l)
  | hook :: rest =>
    if nilableMapHas queues hook.notificationTargetARN then
      getQueuesLoop queues rest
    else
      match hook.parsedArn with
      | none => GoResult.err "arn parse error"
      | some (svc, _acct, res) =>
        if svc ≠ "sqs" then getQueuesLoop queues rest
        else
          match hook.queueUrl with
          | .error e => GoResult.err e
          | .ok url =>
            match nilableMapInsert queues hook.notificationTargetARN
                ⟨hook.lifecycleTransition, res, url⟩ with
            | .ok l => getQueuesLoop (some l) rest
            | .err e => GoResult.err e
            | .panic msg => GoResult.panic msg

/-- `awsClient.GetLifecycleNoticeQueues` (listener.go lines 236-286), hook
processing and final `unique` slice (the leading `GetAutoScalingGroupName`
and `DescribeLifecycleHooks` oracle failures return their error directly and
are omitted).  The map variable starts as the nil map — `var queues
map[string]*Queue` with no initialization. -/
def GetLifecycleNoticeQueues (hooks : List LifecycleHook) :
    GoResult (List Queue) :=
  match getQueuesLoop none hooks with
  | .ok l => GoResult.ok (l.map Prod.snd)
  | .err e => GoResult.err e
  | .panic msg => GoResult.panic msg

/-- Does a fetched message's body parse and name this instance?  (The
condition under which the Go loop in `GetLifecycleNotice` reaches the
delete-and-return branch.) -/
def msgMatches (instanceID : String) (m : SqsMessage) : Bool :=
  match m.body with
  | .invalid => false
  | .valid id _ _ _ => id = instanceID

/-- The poll result carried by a spot select outcome, if it is a tick. -/
def spotEventPoll : SpotEvent → Option (Option Notice)
  | .tick q => some q
  | _ => none

/-- The poll result carried by a lifecycle select outcome, if it is a
fetch. -/
def lifecycleEventPoll : LifecycleEvent → Option (Option Notice)
  | .fetch q => some q
  | _ => none

theorem hbAfter_replicate_heartbeat (p : AEvent → Bool) (n : Notice) (a : Nat)
    (l : List AEvent) (h : p (AEvent.heartbeat n) = false) :
    hbAfter p (List.replicate a (AEvent.heartbeat n) ++ l) = hbAfter p l := by
  induction a with
  | zero => simp
  | succ k ih => simp [List.replicate_succ, hbAfter, h, ih]

theorem filter_heartbeat_replicate (n : Notice) (c : Nat) (l : List AEvent) :
    ((List.replicate c (AEvent.heartbeat n) ++ l).filter isHeartbeat).length
      = c + (l.filter isHeartbeat).length := by
  induction c with
  | zero => simp
  | succ k ih =>
    simp only [List.replicate_succ, List.cons_append, List.filter_cons]
    simp [isHeartbeat, ih]
    omega

theorem filter_heartbeat_replicate_nil (n : Notice) (c : Nat) :
    ((List.replicate c (AEvent.heartbeat n)).filter isHeartbeat).length = c := by
  induction c with
  | zero => rfl
  | succ k ih => simp [List.replicate_succ, List.filter_cons, isHeartbeat, ih]

theorem filter_replicate_heartbeat_none (p : AEvent → Bool) (n : Notice) (a : Nat)
    (h : p (AEvent.heartbeat n) = false) :
    (List.replicate a (AEvent.heartbeat n)).filter p = [] := by
  induction a with
  | zero => rfl
  | succ k ih => simp [List.replicate_succ, List.filter_cons, h, ih]

theorem completions_replicate_heartbeat_nil (n : Notice) (a : Nat) :
    completions (List.replicate a (AEvent.heartbeat n)) = [] := by
  induction a with
  | zero => rfl
  | succ k ih =>
    rw [List.replicate_succ]
    exact ih

theorem completions_replicate_heartbeat (n : Notice) (a : Nat) (l : List AEvent) :
    completions (List.replicate a (AEvent.heartbeat n) ++ l) = completions l := by
  induction a with
  | zero => simp
  | succ k ih => simp [List.replicate_succ, completions, ih]

/-- C2 (amended): in every execution of `ForLifecycleAction` the heartbeat
context is cancelled exactly once, and only after the single completion
call — never before it; but the heartbeat goroutine is not joined and its
heartbeat API call takes no context, so heartbeat sends are not quiesced by
the completion send: `hb3 + hb4` heartbeats occur after the completion
call, `hb4` of them even after `cancel()` (so for every n some execution
has n heartbeat sends after the completion send). -/
theorem forLifecycleAction_cancel_after_complete (service : String)
    (notice : Notice) (sched : Sched) (env : DbusEnv)
    (f : String → DbusEnv → List String × GoErr) (ce : GoErr) :
    (ForLifecycleAction service notice sched env f ce).1.filter
        (fun e => isComplete e || isCancel e)
      = [AEvent.complete (completeInputFor notice) ce, AEvent.cancel]
    ∧ hbAfterComplete (ForLifecycleAction service notice sched env f ce).1
        = sched.hb3 + sched.hb4
    ∧ hbAfterCancel (ForLifecycleAction service notice sched env f ce).1
        = sched.hb4 := by
  refine ⟨?_, ?_, ?_⟩
  · simp [ForLifecycleAction, List.append_assoc, List.filter_append,
      filter_replicate_heartbeat_none, List.filter_cons, isComplete, isCancel]
  · simp [ForLifecycleAction, hbAfterComplete, List.append_assoc,
      hbAfter_replicate_heartbeat, hbAfter, isComplete, isHeartbeat,
      filter_heartbeat_replicate, filter_heartbeat_replicate_nil,
      List.filter_cons]
  · simp [ForLifecycleAction, hbAfterCancel, List.append_assoc,
      hbAfter_replicate_heartbeat, hbAfter, isCancel, isComplete, isHeartbeat,
      filter_heartbeat_replicate_nil]

/-- C2 (counterexample): a concrete execution of `ForLifecycleAction` on a
Launch notice in which the heartbeat goroutine serves one ticker tick after
`CompleteLifecycleAction` has returned and before `cancel()` runs — the
claim "zero heartbeat sends occur after the completion send" is false. -/
theorem forLifecycleAction_heartbeat_after_complete_cex :
    hbAfterComplete (ForLifecycleAction "svc" (Notice.launch "hook-1" "tok-1")
        ⟨0, 0, 1, 0⟩ dbusOK WaitForServiceStart none).1 ≠ 0 := by decide

/-- C3: for every `Handle` call on a Launch or Termination notice, the
trace contains exactly one completion call, it carries the notice's hook
name and action token with result "CONTINUE", and `Handle` returns the
resolved action's error — for every schedule, dbus outcome and
completion-send outcome. -/
theorem handle_lifecycle_completes_exactly_once (service h t : String)
    (sched : Sched) (env : DbusEnv) (ce : GoErr) :
    (completions (Handle service (Notice.launch h t) sched env ce).1
        = [(some ⟨h, t, "CONTINUE"⟩, ce)]
      ∧ (Handle service (Notice.launch h t) sched env ce).2
          = (WaitForServiceStart service env).2)
    ∧ (completions (Handle service (Notice.termination h t) sched env ce).1
        = [(some ⟨h, t, "CONTINUE"⟩, ce)]
      ∧ (Handle service (Notice.termination h t) sched env ce).2
          = (WaitForServiceStop service env).2) := by
  refine ⟨⟨?_, rfl⟩, ?_, rfl⟩ <;>
    simp [Handle, ForLifecycleAction, completions_replicate_heartbeat,
      completions, completeInputFor]

/-- C4 (counterexample): a `Handle` call on a Launch notice in which the
action succeeds and the completion send fails — the completion call is in
the trace with its error, yet `Handle` returns `nil`, so the
completion-send failure is not surfaced as the Handle result. -/
theorem handle_swallows_complete_err_cex :
    (Handle "svc" (Notice.launch "hook-1" "tok-1") ⟨0, 0, 0, 0⟩ dbusOK
        (some "completion send failed")).2 = none
    ∧ completions (Handle "svc" (Notice.launch "hook-1" "tok-1") ⟨0, 0, 0, 0⟩ dbusOK
        (some "completion send failed")).1
        = [(some ⟨"hook-1", "tok-1", "CONTINUE"⟩, some "completion send failed")] := by
  decide

/-- C4 (amended): a completion-send failure is only logged; `Handle` on a
Launch or Termination notice returns exactly the resolved action's error,
whatever the completion call's outcome. -/
theorem handle_returns_action_error_only (service h t : String) (sched : Sched)
    (env : DbusEnv) (ce : GoErr) :
    (Handle service (Notice.launch h t) sched env ce).2
        = (WaitForServiceStart service env).2
    ∧ (Handle service (Notice.termination h t) sched env ce).2
        = (WaitForServiceStop service env).2 :=
  ⟨rfl, rfl⟩

/-- C5 (code bug): when the start/stop job reports a non-"done" result, or
`StartUnit` reports zero jobs created, the Go code constructs an error value
with `fmt.Errorf` but discards it and returns `nil` — the failure is not
propagated as the action's result. -/
theorem waitForService_discards_job_failure :
    ((WaitForServiceStart "svc" { dbusOK with jobResult := "failed" }).2 = none
      ∧ (WaitForServiceStart "svc" { dbusOK with jobResult := "failed" }).1
          = ["failed to start systemd unit svc, job returned failed result"])
    ∧ ((WaitForServiceStop "svc" { dbusOK with jobResult := "failed" }).2 = none
      ∧ (WaitForServiceStop "svc" { dbusOK with jobResult := "failed" }).1
          = ["failed to start systemd unit svc, job returned failed result"])
    ∧ ((WaitForServiceStart "svc" { dbusOK with jobCount := 0 }).2 = none
      ∧ (WaitForServiceStart "svc" { dbusOK with jobCount := 0 }).1
          = ["failed to start systemd unit svc due to unknown error"]) := by
  decide

/-- C9: `Handle` on a Spot-Termination notice runs `WaitForServiceStop` and
returns its result; its trace is the single action event — it contains no
heartbeat send and no completion call, for every schedule and oracle. -/
theorem handle_spot_no_hook_protocol (service : String) (tm : Nat)
    (sched : Sched) (env : DbusEnv) (ce : GoErr) :
    (Handle service (Notice.spot tm) sched env ce).1
        = [AEvent.action (WaitForServiceStop service env).2]
    ∧ (Handle service (Notice.spot tm) sched env ce).1.filter isHeartbeat = []
    ∧ completions (Handle service (Notice.spot tm) sched env ce).1 = []
    ∧ (Handle service (Notice.spot tm) sched env ce).2
        = (WaitForServiceStop service env).2 := by
  refine ⟨rfl, ?_, ?_, rfl⟩ <;> simp [Handle, completions, isHeartbeat]

/-- C1 (code bug): the dispatch loop of `main` is written
`for ctx.Err() != nil { ... }`.  With the fresh, un-cancelled context
(`canceled = false`) the loop exits at once, so no available notice is ever
received or handled; with a cancelled context it would keep pulling — the
exact inversion of the claimed behavior. -/
theorem mainLoop_inverted_condition :
    (∀ evs : List MainEvent, mainLoop false evs = [])
    ∧ mainLoop true [MainEvent.notice (Notice.spot 5)] = [Notice.spot 5] := by
  constructor
  · intro evs; cases evs <;> rfl
  · rfl

/-- C8 (code bug): `GetLifecycleNoticeQueues` declares
`var queues map[string]*Queue` and never initializes it; the first hook
whose notification-target ARN parses to the sqs service reaches the map
assignment and panics at runtime.  Only the zero-hook run completes. -/
theorem getLifecycleNoticeQueues_nil_map_panic :
    GetLifecycleNoticeQueues
        [{ notificationTargetARN := "arn:aws:sqs:us-east-1:123456789012:q1",
           lifecycleTransition := LaunchLifecycleAction,
           parsedArn := some ("sqs", "123456789012", "q1"),
           queueUrl := Except.ok "https://sqs.us-east-1.amazonaws.com/123456789012/q1" }]
      = GoResult.panic "assignment to entry in nil map"
    ∧ GetLifecycleNoticeQueues [] = GoResult.ok [] :=
  ⟨rfl, rfl⟩

/-- C10: a fetched message that matches this instance's identity but whose
`LifecycleTransition` is neither the launch constant nor the termination
constant is deleted from the queue, and `GetLifecycleNotice` returns a nil
notice with no error — the event is consumed without any Notice. -/
theorem getLifecycleNotice_unknown_transition (instanceID hook token transition
    receipt : String) (post : List SqsMessage)
    (h1 : transition ≠ LaunchLifecycleAction)
    (h2 : transition ≠ TerminationLifecycleAction) :
    GetLifecycleNotice instanceID
        ({ body := MsgBody.valid instanceID hook token transition,
           receiptHandle := receipt, deleteErr := none } :: post)
      = ([receipt], .ok none) := by
  simp [GetLifecycleNotice, h1, h2]

/-- Witness for `getLifecycleNotice_unknown_transition` at a concrete
message. -/
theorem getLifecycleNotice_unknown_transition_witness :
    GetLifecycleNotice "i-0abc"
        [{ body := MsgBody.valid "i-0abc" "hook-9" "tok-9"
             "autoscaling:TEST_NOTIFICATION",
           receiptHandle := "r-9", deleteErr := none }]
      = (["r-9"], .ok none) :=
  getLifecycleNotice_unknown_transition "i-0abc" "hook-9" "tok-9"
    "autoscaling:TEST_NOTIFICATION" "r-9" [] (by decide) (by decide)

/-- C6 (counterexample): a fetched message whose identity matches this
instance is deleted, yet no Notice is emitted for it, because its
transition is neither lifecycle constant — refuting "for every fetched
message whose identity matches, the message is deleted and exactly one
Notice is emitted for it". -/
theorem getLifecycleNotice_match_without_notice_cex :
    GetLifecycleNotice "i-1"
        [{ body := MsgBody.valid "i-1" "hook-1" "tok-1" "unexpected:TRANSITION",
           receiptHandle := "r-1", deleteErr := none }]
      = (["r-1"], .ok none) :=
  rfl

theorem getLifecycleNotice_no_match (instanceID : String)
    (msgs : List SqsMessage)
    (h : ∀ m ∈ msgs, msgMatches instanceID m = false) :
    GetLifecycleNotice instanceID msgs = ([], .ok none) := by
  induction msgs with
  | nil => rfl
  | cons m rest ih =>
    have hm := h m (by simp)
    have hrest : ∀ m2 ∈ rest, msgMatches instanceID m2 = false :=
      fun m2 hm2 => h m2 (by simp [hm2])
    cases hb : m.body with
    | invalid => simp [GetLifecycleNotice, hb, ih hrest]
    | valid id hook token transition =>
      have hid : id ≠ instanceID := by
        simpa [msgMatches, hb] using hm
      simp [GetLifecycleNotice, hb, hid, ih hrest]

theorem getLifecycleNotice_deletes_at_most_one (instanceID : String)
    (msgs : List SqsMessage) :
    (GetLifecycleNotice instanceID msgs).1.length ≤ 1 := by
  induction msgs with
  | nil => simp [GetLifecycleNotice]
  | cons m rest ih =>
    cases hb : m.body with
    | invalid => simpa [GetLifecycleNotice, hb] using ih
    | valid id hook token transition =>
      by_cases hid : id = instanceID
      · cases hd : m.deleteErr with
        | some e => simp [GetLifecycleNotice, hb, hid, hd]
        | none => simp [GetLifecycleNotice, hb, hid, hd]
      · simpa [GetLifecycleNotice, hb, hid] using ih

theorem getLifecycleNotice_first_match (instanceID : String)
    (pre post : List SqsMessage) (hook token transition receipt : String)
    (hpre : ∀ m ∈ pre, msgMatches instanceID m = false) :
    GetLifecycleNotice instanceID
        (pre ++ { body := MsgBody.valid instanceID hook token transition,
                  receiptHandle := receipt, deleteErr := none } :: post)
      = ([receipt],
         .ok (if transition = LaunchLifecycleAction then
                some (Notice.launch hook token)
              else if transition = TerminationLifecycleAction then
                some (Notice.termination hook token)
              else none)) := by
  induction pre with
  | nil => simp [GetLifecycleNotice]
  | cons m rest ih =>
    have hm := hpre m (by simp)
    have hrest : ∀ m2 ∈ rest, msgMatches instanceID m2 = false :=
      fun m2 hm2 => hpre m2 (by simp [hm2])
    cases hb : m.body with
    | invalid => simp [GetLifecycleNotice, hb, ih hrest]
    | valid id hook2 token2 transition2 =>
      have hid : id ≠ instanceID := by
        simpa [msgMatches, hb] using hm
      simp [GetLifecycleNotice, hb, hid, ih hrest]

/-- C6 (amended): messages whose identity does not match (or whose body does
not parse) are never deleted and produce no Notice; at most one message is
deleted per `GetLifecycleNotice` call; and the first matching message in the
batch is deleted, with exactly one Notice emitted for it precisely when its
transition is the launch or termination constant (messages after it are left
for later polls). -/
theorem getLifecycleNotice_instance_filtering (instanceID : String)
    (pre post : List SqsMessage) (hook token transition receipt : String)
    (hpre : ∀ m ∈ pre, msgMatches instanceID m = false) :
    (∀ msgs : List SqsMessage, (∀ m ∈ msgs, msgMatches instanceID m = false) →
        GetLifecycleNotice instanceID msgs = ([], .ok none))
    ∧ (∀ msgs : List SqsMessage,
        (GetLifecycleNotice instanceID msgs).1.length ≤ 1)
    ∧ GetLifecycleNotice instanceID
        (pre ++ { body := MsgBody.valid instanceID hook token transition,
                  receiptHandle := receipt, deleteErr := none } :: post)
      = ([receipt],
         .ok (if transition = LaunchLifecycleAction then
                some (Notice.launch hook token)
              else if transition = TerminationLifecycleAction then
                some (Notice.termination hook token)
              else none)) :=
  ⟨fun msgs h => getLifecycleNotice_no_match instanceID msgs h,
   fun msgs => getLifecycleNotice_deletes_at_most_one instanceID msgs,
   getLifecycleNotice_first_match instanceID pre post hook token transition
     receipt hpre⟩

/-- Witness for `getLifecycleNotice_instance_filtering`: a batch holding one
other instance's message followed by one of ours. -/
theorem getLifecycleNotice_instance_filtering_witness :
    GetLifecycleNotice "i-1"
        ([{ body := MsgBody.valid "i-2" "hook-o" "tok-o"
              "autoscaling:EC2_INSTANCE_LAUNCHING",
            receiptHandle := "r-o", deleteErr := none }]
          ++ { body := MsgBody.valid "i-1" "launch-hook" "tok-1"
                 "autoscaling:EC2_INSTANCE_LAUNCHING",
               receiptHandle := "r-2", deleteErr := none } :: [])
      = (["r-2"],
         .ok (if ("autoscaling:EC2_INSTANCE_LAUNCHING" : String)
                  = LaunchLifecycleAction then
                some (Notice.launch "launch-hook" "tok-1")
              else if ("autoscaling:EC2_INSTANCE_LAUNCHING" : String)
                  = TerminationLifecycleAction then
                some (Notice.termination "launch-hook" "tok-1")
              else none)) :=
  (getLifecycleNotice_instance_filtering "i-1"
    [{ body := MsgBody.valid "i-2" "hook-o" "tok-o"
         "autoscaling:EC2_INSTANCE_LAUNCHING",
       receiptHandle := "r-o", deleteErr := none }]
    [] "launch-hook" "tok-1" "autoscaling:EC2_INSTANCE_LAUNCHING" "r-2"
    (by decide)).2.2

theorem spotStep_notice (s : ListenerState) (e : SpotEvent) (s2 : ListenerState)
    (h : spotStep s e = some s2) :
    s2.notice = s.notice ∨ ∃ q, e = SpotEvent.tick q ∧ s2.notice = q := by
  cases e with
  | send =>
    simp only [spotStep] at h
    split at h <;> cases h
    exact Or.inl rfl
  | tick q =>
    simp only [spotStep] at h
    cases h
    exact Or.inr ⟨q, rfl, rfl⟩
  | ctxDone =>
    simp [spotStep] at h

theorem lifecycleStep_notice (s : ListenerState) (e : LifecycleEvent)
    (s2 : ListenerState) (h : lifecycleStep s e = some s2) :
    s2.notice = s.notice ∨ ∃ q, e = LifecycleEvent.fetch q ∧ s2.notice = q := by
  cases e with
  | send =>
    simp only [lifecycleStep] at h
    split at h <;> cases h
    exact Or.inl rfl
  | fetch q =>
    simp only [lifecycleStep] at h
    cases h
    exact Or.inr ⟨q, rfl, rfl⟩
  | ctxDone =>
    simp [lifecycleStep] at h

theorem spotRun_identical_polls (r : Option Notice) :
    ∀ evs : List SpotEvent,
      (∀ e ∈ evs, spotEventPoll e = none ∨ spotEventPoll e = some r) →
      ∀ s0 s : ListenerState, (s0.notice = none ∨ s0.notice = r) →
      spotRun evs s0 = some s →
      s.notice = none ∨ s.notice = r := by
  intro evs
  induction evs with
  | nil =>
    intro _ s0 s h0 hr
    simp only [spotRun, Option.some.injEq] at hr
    rw [← hr]
    exact h0
  | cons e rest ih =>
    intro h s0 s h0 hr
    have hrest : ∀ e2 ∈ rest, spotEventPoll e2 = none ∨ spotEventPoll e2 = some r :=
      fun e2 h2 => h e2 (List.mem_cons_of_mem _ h2)
    simp only [spotRun] at hr
    cases h2 : spotStep s0 e with
    | none =>
      rw [h2] at hr
      cases hr
    | some s2 =>
      rw [h2] at hr
      rcases spotStep_notice s0 e s2 h2 with hn | ⟨q, he, hn⟩
      · exact ih hrest s2 s (by rw [hn]; exact h0) hr
      · have hq : q = r := by
          have hp := h e (List.mem_cons_self _ _)
          rw [he] at hp
          simpa [spotEventPoll] using hp
        exact ih hrest s2 s (Or.inr (by rw [hn, hq])) hr

theorem lifecycleRun_identical_polls (r : Option Notice) :
    ∀ evs : List LifecycleEvent,
      (∀ e ∈ evs, lifecycleEventPoll e = none ∨ lifecycleEventPoll e = some r) →
      ∀ s0 s : ListenerState, (s0.notice = none ∨ s0.notice = r) →
      lifecycleRun evs s0 = some s →
      s.notice = none ∨ s.notice = r := by
  intro evs
  induction evs with
  | nil =>
    intro _ s0 s h0 hr
    simp only [lifecycleRun, Option.some.injEq] at hr
    rw [← hr]
    exact h0
  | cons e rest ih =>
    intro h s0 s h0 hr
    have hrest : ∀ e2 ∈ rest,
        lifecycleEventPoll e2 = none ∨ lifecycleEventPoll e2 = some r :=
      fun e2 h2 => h e2 (List.mem_cons_of_mem _ h2)
    simp only [lifecycleRun] at hr
    cases h2 : lifecycleStep s0 e with
    | none =>
      rw [h2] at hr
      cases hr
    | some s2 =>
      rw [h2] at hr
      rcases lifecycleStep_notice s0 e s2 h2 with hn | ⟨q, he, hn⟩
      · exact ih hrest s2 s (by rw [hn]; exact h0) hr
      · have hq : q = r := by
          have hp := h e (List.mem_cons_self _ _)
          rw [he] at hp
          simpa [lifecycleEventPoll] using hp
        exact ih hrest s2 s (Or.inr (by rw [hn, hq])) hr

/-- C7: each listener's `Listen` loop keeps its pending notice in the single
slot variable `notice` (so at most one undelivered notice is ever held), and
under repeated identical polls — every tick/fetch returning the same result
`r` — every reachable slot value is `none` or `r`: the pending notice is
never overwritten by a different or empty value before delivery. -/
theorem listener_single_slot_no_drop (r : Option Notice)
    (evsS : List SpotEvent) (evsL : List LifecycleEvent)
    (sS sL : ListenerState)
    (hS : ∀ e ∈ evsS, spotEventPoll e = none ∨ spotEventPoll e = some r)
    (hL : ∀ e ∈ evsL, lifecycleEventPoll e = none ∨ lifecycleEventPoll e = some r)
    (hrS : spotRun evsS listenerInit = some sS)
    (hrL : lifecycleRun evsL listenerInit = some sL) :
    (sS.notice = none ∨ sS.notice = r)
    ∧ (sL.notice = none ∨ sL.notice = r) :=
  ⟨spotRun_identical_polls r evsS hS listenerInit sS (Or.inl rfl) hrS,
   lifecycleRun_identical_polls r evsL hL listenerInit sL (Or.inl rfl) hrL⟩

/-- Witness for `listener_single_slot_no_drop`: a spot run that polls a
notice and delivers it, and a lifecycle run that fetches one. -/
theorem listener_single_slot_no_drop_witness :
    ((⟨some (Notice.spot 1), false⟩ : ListenerState).notice = none
      ∨ (⟨some (Notice.spot 1), false⟩ : ListenerState).notice
          = some (Notice.spot 1))
    ∧ ((⟨some (Notice.spot 1), false⟩ : ListenerState).notice = none
      ∨ (⟨some (Notice.spot 1), false⟩ : ListenerState).notice
          = some (Notice.spot 1)) :=
  listener_single_slot_no_drop (some (Notice.spot 1))
    [SpotEvent.tick (some (Notice.spot 1)), SpotEvent.send]
    [LifecycleEvent.fetch (some (Notice.spot 1))]
    ⟨some (Notice.spot 1), false⟩ ⟨some (Notice.spot 1), false⟩
    (by decide) (by decide) (by decide) (by decide)
